import Mathlib

/-!
Verification of the usage-delta monitor of `machine-info-rs`.

The repository ships `src/machine.rs`, whose `Machine` type delegates the
stateful monitoring work (process registry, baseline replacement, delta
computation) to `crate::monitor::Monitor`.  The `monitor` module itself is
not part of the provided sources, so its operations are modelled from the
specification; the `Machine` layer (constructor, NVML handling,
`graphics_status`, and the delegating wrappers) is embedded from
`src/machine.rs` directly.

Cumulative CPU times and timestamps are modelled as rationals, pids as
integers (`i32` in the source), and memory amounts as naturals.
-/

namespace MachineInfo

/-- Modelled from the spec (§3, the `monitor` module is absent from the
sources): one monitored process's stored baseline sample. -/
structure TrackedEntity where
  baseline_cpu_time : ℚ
  baseline_timestamp : ℚ
deriving DecidableEq, Repr

/-- Modelled from the spec (§3): the singleton whole-machine baseline. -/
structure SystemBaseline where
  cumulative_cpu_time : ℚ
  timestamp : ℚ
deriving DecidableEq, Repr

/-- A fresh per-process snapshot from the Resource Snapshot Provider:
pairs of (pid, cumulative CPU run-time). -/
abbrev ProcSnapshot := List (Int × ℚ)

/-- Looking a pid up in a process snapshot. -/
def lookupSnap (pid : Int) : ProcSnapshot → Option ℚ
  | [] => none
  | (q, c) :: rest => if q = pid then some c else lookupSnap pid rest

/-- A fresh whole-system snapshot: aggregate cumulative CPU time and the
instantaneous amount of memory used. -/
structure SysSnapshot where
  cumulative_cpu_time : ℚ
  memory_used : Nat
deriving DecidableEq, Repr

/-- The error taxonomy of the monitor (spec §7). -/
inductive MonitorError where
  | ProcessNotFound
  | SamplingError
deriving DecidableEq, Repr

/-- Modelled from the spec (§4.2): the shared delta formula.
`elapsed = now - baseline_timestamp`; if `elapsed ≤ 0` the poll reports 0,
otherwise `100 * (cpu_now - baseline_cpu) / elapsed` with no core-count
normalization. -/
def cpuPercent (baseline_cpu baseline_ts cpu_now now : ℚ) : ℚ :=
  let elapsed := now - baseline_ts
  if elapsed ≤ 0 then 0 else 100 * (cpu_now - baseline_cpu) / elapsed

/-- Modelled from the spec (§2, §3): the monitor's state, a registry of
tracked processes and the optional whole-system baseline. -/
structure Monitor where
  registry : List (Int × TrackedEntity)
  sysBaseline : Option SystemBaseline
deriving DecidableEq, Repr

/-- `Monitor::new`: empty registry, no system baseline yet. -/
def Monitor.new : Monitor := ⟨[], none⟩

/-- Inserting a tracked entity, overwriting any prior entry for the pid. -/
def insertEntity (pid : Int) (e : TrackedEntity)
    (reg : List (Int × TrackedEntity)) : List (Int × TrackedEntity) :=
  (pid, e) :: reg.filter (fun p => p.1 ≠ pid)

/-- Modelled from the spec (§4.1 `track`): look the pid up in a fresh
snapshot; absent fails with `ProcessNotFound`, present inserts a
`TrackedEntity` whose baseline is the current cumulative CPU time and the
current timestamp, overwriting any prior entry. -/
def Monitor.track_process (m : Monitor) (snap : ProcSnapshot) (now : ℚ)
    (pid : Int) : Except MonitorError Monitor :=
  match lookupSnap pid snap with
  | none => .error .ProcessNotFound
  | some c => .ok { m with registry := insertEntity pid ⟨c, now⟩ m.registry }

/-- Modelled from the spec (§4.1 `untrack`): remove the entry if present,
a no-op (not an error) if absent. -/
def Monitor.untrack_process (m : Monitor) (pid : Int) : Monitor :=
  { m with registry := m.registry.filter (fun p => p.1 ≠ pid) }

/-- Modelled from the spec (§4.2): walk the registry against one fresh
snapshot.  An absent pid is skipped from the results and its entry
retained; a present pid contributes `(pid, percent)` and has its baseline
replaced by the just-observed sample. -/
def pollRegistry (snap : ProcSnapshot) (now : ℚ) :
    List (Int × TrackedEntity) → List (Int × ℚ) × List (Int × TrackedEntity)
  | [] => ([], [])
  | (pid, e) :: rest =>
    let r := pollRegistry snap now rest
    match lookupSnap pid snap with
    | none => (r.1, (pid, e) :: r.2)
    | some c =>
      ((pid, cpuPercent e.baseline_cpu_time e.baseline_timestamp c now) :: r.1,
       (pid, ⟨c, now⟩) :: r.2)

/-- Modelled from the spec (§4.2 `poll_processes`): one per-process poll,
returning the `(pid, percent)` sequence and the monitor with replaced
baselines. -/
def Monitor.next_processes (m : Monitor) (snap : ProcSnapshot) (now : ℚ) :
    List (Int × ℚ) × Monitor :=
  let r := pollRegistry snap now m.registry
  (r.1, { m with registry := r.2 })

/-- Modelled from the spec (§4.3 `poll_system`): whole-system poll.  A
provider failure (`none`) is a `SamplingError`; otherwise the first call
(no baseline) reports 0 and every call replaces the baseline with the
just-observed sample, reporting the instantaneous memory used. -/
def Monitor.next (m : Monitor) (snap : Option SysSnapshot) (now : ℚ) :
    Except MonitorError ((ℚ × Nat) × Monitor) :=
  match snap with
  | none => .error .SamplingError
  | some s =>
    let pct : ℚ :=
      match m.sysBaseline with
      | none => 0
      | some b => cpuPercent b.cumulative_cpu_time b.timestamp
          s.cumulative_cpu_time now
    .ok ((pct, s.memory_used),
      { m with sysBaseline := some ⟨s.cumulative_cpu_time, now⟩ })

/-- NVML error codes, abstract (the NVML library is an external
collaborator). -/
abbrev NvmlError := Nat

/-- One entry of `process_utilization_stats` (src/machine.rs lines
287-293). -/
structure GraphicsProcessUtilization where
  pid : Nat
  gpu : Nat
  memory : Nat
  encoder : Nat
  decoder : Nat
deriving DecidableEq, Repr

/-- The per-device NVML queries used by `graphics_status`, each a
fallible call (src/machine.rs lines 283-344). -/
structure NvmlDevice where
  uuid : Except NvmlError String
  memory_info_used : Except NvmlError Nat
  encoder_utilization : Except NvmlError Nat
  decoder_utilization : Except NvmlError Nat
  utilization_rates : Except NvmlError (Nat × Nat)
  temperature : Except NvmlError Nat
  process_utilization_stats : Except NvmlError (List GraphicsProcessUtilization)

/-- The NVML handle as used by `graphics_status`: a device count and an
indexed device query, both fallible (src/machine.rs lines 264-281). -/
structure Nvml where
  device_count : Except NvmlError Nat
  device_by_index : Nat → Except NvmlError NvmlDevice

/-- `GraphicsUsage` from the model module as populated at
src/machine.rs lines 346-355. -/
structure GraphicsUsage where
  id : String
  memory_used : Nat
  encoder : Nat
  decoder : Nat
  gpu : Nat
  memory_usage : Nat
  temperature : Nat
  processes : List GraphicsProcessUtilization
deriving DecidableEq, Repr

/-- `Process` as returned by `processes_status` (src/machine.rs line
409). -/
structure Process where
  pid : Int
  cpu : ℚ
deriving DecidableEq, Repr

/-- `SystemStatus` as returned by `system_status` (src/machine.rs lines
431-434). -/
structure SystemStatus where
  memory : Nat
  cpu : ℚ
deriving DecidableEq, Repr

/-- `Machine` (src/machine.rs lines 20-23): the monitor plus an optional
NVML handle. -/
structure Machine where
  monitor : Monitor
  nvml : Option Nvml

/-- `Machine::new` (src/machine.rs lines 33-48): total, never fails.  The
outcome of `Nvml::init()` is passed in; on error the handle is simply
absent. -/
def Machine.new (init : Except NvmlError Nvml) : Machine :=
  { monitor := Monitor.new,
    nvml := match init with
      | .ok n => some n
      | .error _ => none }

/-- The body of the per-device loop of `graphics_status`
(src/machine.rs lines 283-355): each `continue` on a failed query is a
`none`; a failed `process_utilization_stats` just yields an empty
process list. -/
def pollDevice (device : NvmlDevice) : Option GraphicsUsage :=
  let processes :=
    match device.process_utilization_stats with
    | .ok stats => stats
    | .error _ => []
  match device.uuid with
  | .error _ => none
  | .ok uuid =>
    match device.memory_info_used with
    | .error _ => none
    | .ok memUsed =>
      match device.encoder_utilization with
      | .error _ => none
      | .ok enc =>
        match device.decoder_utilization with
        | .error _ => none
        | .ok dec =>
          match device.utilization_rates with
          | .error _ => none
          | .ok rates =>
            match device.temperature with
            | .error _ => none
            | .ok temp =>
              some { id := uuid, memory_used := memUsed, encoder := enc,
                     decoder := dec, gpu := rates.1, memory_usage := rates.2,
                     temperature := temp, processes := processes }

/-- `Machine::graphics_status` (src/machine.rs lines 261-361): without an
NVML handle the card list stays empty; with one, iterate the devices,
skipping any device whose queries fail. -/
def Machine.graphics_status (m : Machine) : List GraphicsUsage :=
  match m.nvml with
  | none => []
  | some nvml =>
    match nvml.device_count with
    | .error _ => []
    | .ok count =>
      (List.range count).filterMap (fun n =>
        match nvml.device_by_index n with
        | .error _ => none
        | .ok device => pollDevice device)

/-- `Machine::track_process` (src/machine.rs lines 373-375): delegates to
the monitor. -/
def Machine.track_process (m : Machine) (snap : ProcSnapshot) (now : ℚ)
    (pid : Int) : Except MonitorError Machine :=
  match m.monitor.track_process snap now pid with
  | .error e => .error e
  | .ok mon => .ok { m with monitor := mon }

/-- `Machine::untrack_process` (src/machine.rs lines 387-389): delegates
to the monitor, never fails. -/
def Machine.untrack_process (m : Machine) (pid : Int) : Machine :=
  { m with monitor := m.monitor.untrack_process pid }

/-- `Machine::processes_status` (src/machine.rs lines 408-410): one
per-process poll, mapping each `(pid, cpu)` pair into a `Process`. -/
def Machine.processes_status (m : Machine) (snap : ProcSnapshot) (now : ℚ) :
    List Process × Machine :=
  let r := m.monitor.next_processes snap now
  (r.1.map (fun p => { pid := p.1, cpu := p.2 }), { m with monitor := r.2 })

/-- `Machine::system_status` (src/machine.rs lines 429-435): one
whole-system poll; a provider failure propagates to the caller. -/
def Machine.system_status (m : Machine) (snap : Option SysSnapshot)
    (now : ℚ) : Except MonitorError (SystemStatus × Machine) :=
  match m.monitor.next snap now with
  | .error e => .error e
  | .ok ((cpu, memory), mon) =>
    .ok ({ memory := memory, cpu := cpu }, { m with monitor := mon })

/-! ## Helper lemmas -/

theorem cpuPercent_of_nonpos {bt now : ℚ} (bc cn : ℚ) (h : now - bt ≤ 0) :
    cpuPercent bc bt cn now = 0 := by
  simp [cpuPercent, h]

theorem cpuPercent_of_pos {bt now : ℚ} (bc cn : ℚ) (h : 0 < now - bt) :
    cpuPercent bc bt cn now = 100 * (cn - bc) / (now - bt) := by
  simp [cpuPercent, h.not_le]

theorem cpuPercent_nonneg {bc cn : ℚ} (bt now : ℚ) (h : bc ≤ cn) :
    0 ≤ cpuPercent bc bt cn now := by
  unfold cpuPercent
  by_cases he : now - bt ≤ 0
  · simp [he]
  · simp only [he, if_false]
    have h1 : (0 : ℚ) < now - bt := lt_of_not_le he
    have h2 : (0 : ℚ) ≤ 100 * (cn - bc) := by
      have := sub_nonneg.mpr h
      positivity
    exact div_nonneg h2 h1.le

theorem pollRegistry_mem_result {snap : ProcSnapshot} {now : ℚ}
    {reg : List (Int × TrackedEntity)} {pid : Int} {e : TrackedEntity} {c : ℚ}
    (hmem : (pid, e) ∈ reg) (hsnap : lookupSnap pid snap = some c) :
    (pid, cpuPercent e.baseline_cpu_time e.baseline_timestamp c now)
      ∈ (pollRegistry snap now reg).1 := by
  induction reg with
  | nil => simp at hmem
  | cons hd rest ih =>
    obtain ⟨q, f⟩ := hd
    rcases List.mem_cons.mp hmem with heq | hmem'
    · obtain ⟨rfl, rfl⟩ := Prod.mk.injEq .. ▸ heq
      simp [pollRegistry, hsnap]
    · have h' := ih hmem'
      cases hq : lookupSnap q snap <;>
        simp [pollRegistry, hq, h']

theorem pollRegistry_mem_updated {snap : ProcSnapshot} {now : ℚ}
    {reg : List (Int × TrackedEntity)} {pid : Int} {e : TrackedEntity} {c : ℚ}
    (hmem : (pid, e) ∈ reg) (hsnap : lookupSnap pid snap = some c) :
    (pid, (⟨c, now⟩ : TrackedEntity)) ∈ (pollRegistry snap now reg).2 := by
  induction reg with
  | nil => simp at hmem
  | cons hd rest ih =>
    obtain ⟨q, f⟩ := hd
    rcases List.mem_cons.mp hmem with heq | hmem'
    · obtain ⟨rfl, rfl⟩ := Prod.mk.injEq .. ▸ heq
      simp [pollRegistry, hsnap]
    · have h' := ih hmem'
      cases hq : lookupSnap q snap <;>
        simp [pollRegistry, hq, h']

theorem pollRegistry_retains_absent {snap : ProcSnapshot} {now : ℚ}
    {reg : List (Int × TrackedEntity)} {pid : Int} {e : TrackedEntity}
    (hmem : (pid, e) ∈ reg) (hsnap : lookupSnap pid snap = none) :
    (pid, e) ∈ (pollRegistry snap now reg).2 := by
  induction reg with
  | nil => simp at hmem
  | cons hd rest ih =>
    obtain ⟨q, f⟩ := hd
    rcases List.mem_cons.mp hmem with heq | hmem'
    · obtain ⟨rfl, rfl⟩ := Prod.mk.injEq .. ▸ heq
      simp [pollRegistry, hsnap]
    · have h' := ih hmem'
      cases hq : lookupSnap q snap <;>
        simp [pollRegistry, hq, h']

theorem pollRegistry_result_shape {snap : ProcSnapshot} {now : ℚ} :
    ∀ {reg : List (Int × TrackedEntity)} {q : Int} {v : ℚ},
      (q, v) ∈ (pollRegistry snap now reg).1 →
      ∃ e c, (q, e) ∈ reg ∧ lookupSnap q snap = some c ∧
        v = cpuPercent e.baseline_cpu_time e.baseline_timestamp c now := by
  intro reg
  induction reg with
  | nil => intro q v h; simp [pollRegistry] at h
  | cons hd rest ih =>
    intro q v h
    obtain ⟨p, f⟩ := hd
    cases hq : lookupSnap p snap with
    | none =>
      simp only [pollRegistry, hq] at h
      obtain ⟨e, c, hmem, hl, hv⟩ := ih h
      exact ⟨e, c, List.mem_cons_of_mem _ hmem, hl, hv⟩
    | some c0 =>
      simp only [pollRegistry, hq] at h
      rcases List.mem_cons.mp h with heq | h'
      · obtain ⟨rfl, rfl⟩ := Prod.mk.injEq .. ▸ heq
        exact ⟨f, c0, List.mem_cons_self _ _, hq, rfl⟩
      · obtain ⟨e, c, hmem, hl, hv⟩ := ih h'
        exact ⟨e, c, List.mem_cons_of_mem _ hmem, hl, hv⟩

/-- The cpu percent a whole-system poll reports: 0 on the first call (no
baseline yet), the delta formula afterwards. -/
def sysPct (m : Machine) (s : SysSnapshot) (now : ℚ) : ℚ :=
  match m.monitor.sysBaseline with
  | none => 0
  | some b => cpuPercent b.cumulative_cpu_time b.timestamp
      s.cumulative_cpu_time now

theorem system_status_ok (m : Machine) (s : SysSnapshot) (now : ℚ) :
    m.system_status (some s) now =
      .ok (⟨s.memory_used, sysPct m s now⟩,
        { m with monitor := { m.monitor with
            sysBaseline := some ⟨s.cumulative_cpu_time, now⟩ } }) := by
  cases hb : m.monitor.sysBaseline <;>
    simp [Machine.system_status, Monitor.next, sysPct, hb]

/-! ## Claim theorems -/

/-- C1: for every tracked process whose pid is present in the fresh
snapshot and whose elapsed time since its stored baseline is positive, the
per-process poll reports a cpu percent equal to
`100 * (cpu_time_now - baseline_cpu_time) / elapsed`, with no
normalization by core count (so the value may exceed 100, as the witness
shows). -/
theorem processes_status_cpu_formula
    (m : Machine) (snap : ProcSnapshot) (now : ℚ) (pid : Int)
    (e : TrackedEntity) (c : ℚ)
    (hmem : (pid, e) ∈ m.monitor.registry)
    (hsnap : lookupSnap pid snap = some c)
    (helapsed : 0 < now - e.baseline_timestamp) :
    ({ pid := pid,
       cpu := 100 * (c - e.baseline_cpu_time) / (now - e.baseline_timestamp) }
      : Process) ∈ (m.processes_status snap now).1 := by
  have h := @pollRegistry_mem_result snap now m.monitor.registry pid e c
    hmem hsnap
  rw [cpuPercent_of_pos _ _ helapsed] at h
  simpa [Machine.processes_status, Monitor.next_processes] using
    List.mem_map_of_mem (fun p => Process.mk p.1 p.2) h

theorem processes_status_cpu_formula_witness :
    ({ pid := 1, cpu := 100 * ((3 : ℚ) - 0) / (1 - 0) } : Process)
      ∈ ((Machine.mk ⟨[(1, ⟨0, 0⟩)], none⟩ none).processes_status [(1, 3)] 1).1
    ∧ (100 : ℚ) < 100 * ((3 : ℚ) - 0) / (1 - 0) := by
  constructor
  · exact processes_status_cpu_formula _ _ _ _ ⟨0, 0⟩ 3
      (List.mem_singleton_self _) rfl (by norm_num)
  · norm_num

/-- C2: the cpu-percent computation never divides by zero and never goes
negative: a nonpositive elapsed time reports 0, every per-process result
is nonnegative when the snapshot's cumulative counters have not decreased
below the stored baselines, and the whole-system poll's percent is
likewise nonnegative. -/
theorem cpu_percent_safe :
    (∀ bc bt cn now : ℚ, now - bt ≤ 0 → cpuPercent bc bt cn now = 0) ∧
    (∀ (m : Machine) (snap : ProcSnapshot) (now : ℚ),
      (∀ pid e c, (pid, e) ∈ m.monitor.registry →
        lookupSnap pid snap = some c → e.baseline_cpu_time ≤ c) →
      ∀ p ∈ (m.processes_status snap now).1, 0 ≤ p.cpu) ∧
    (∀ (m : Machine) (s : SysSnapshot) (now : ℚ),
      (∀ b, m.monitor.sysBaseline = some b →
        b.cumulative_cpu_time ≤ s.cumulative_cpu_time) →
      ∃ r m', m.system_status (some s) now = .ok (r, m') ∧ 0 ≤ r.cpu) := by
  refine ⟨fun bc bt cn now h => cpuPercent_of_nonpos bc cn h, ?_, ?_⟩
  · intro m snap now hmono p hp
    simp only [Machine.processes_status, Monitor.next_processes,
      List.mem_map] at hp
    obtain ⟨⟨q, v⟩, hqv, rfl⟩ := hp
    obtain ⟨e, c, hmem, hl, rfl⟩ := pollRegistry_result_shape hqv
    exact cpuPercent_nonneg _ _ (hmono q e c hmem hl)
  · intro m s now hmono
    cases hb : m.monitor.sysBaseline with
    | none =>
      refine ⟨⟨s.memory_used, 0⟩,
        { m with monitor := { m.monitor with
            sysBaseline := some ⟨s.cumulative_cpu_time, now⟩ } },
        ?_, le_refl 0⟩
      simp [Machine.system_status, Monitor.next, hb]
    | some b =>
      refine ⟨⟨s.memory_used,
          cpuPercent b.cumulative_cpu_time b.timestamp s.cumulative_cpu_time now⟩,
        { m with monitor := { m.monitor with
            sysBaseline := some ⟨s.cumulative_cpu_time, now⟩ } },
        ?_, cpuPercent_nonneg _ _ (hmono b hb)⟩
      simp [Machine.system_status, Monitor.next, hb]

theorem cpu_percent_safe_witness :
    cpuPercent 0 0 1 0 = 0 ∧
    (∀ p ∈ ((Machine.mk ⟨[(1, ⟨0, 0⟩)], none⟩ none).processes_status
        [(1, 3)] 1).1, 0 ≤ p.cpu) ∧
    (∃ r m', (Machine.mk ⟨[], some ⟨0, 0⟩⟩ none).system_status
        (some ⟨2, 5⟩) 1 = .ok (r, m') ∧ 0 ≤ r.cpu) := by
  refine ⟨cpu_percent_safe.1 0 0 1 0 (by norm_num), ?_, ?_⟩
  · refine cpu_percent_safe.2.1 _ _ _ ?_
    intro pid e c hmem hl
    simp only [List.mem_singleton, Prod.mk.injEq] at hmem
    obtain ⟨rfl, rfl⟩ := hmem
    simp [lookupSnap] at hl
    show (0 : ℚ) ≤ c
    linarith
  · refine cpu_percent_safe.2.2 _ _ _ ?_
    intro b hb
    simp only [Option.some.injEq] at hb
    subst hb
    norm_num

/-- C3: `track_process` fails with `ProcessNotFound` exactly when the pid
is absent from the fresh snapshot; when present it succeeds, inserting a
`TrackedEntity` whose baseline is the current cumulative CPU time and the
current timestamp, overwriting any prior entry for that pid. -/
theorem track_process_spec
    (m : Machine) (snap : ProcSnapshot) (now : ℚ) (pid : Int) :
    (m.track_process snap now pid = .error .ProcessNotFound ↔
      lookupSnap pid snap = none) ∧
    (∀ c, lookupSnap pid snap = some c →
      m.track_process snap now pid = .ok
        { m with monitor := { m.monitor with
            registry := (pid, ⟨c, now⟩) ::
              m.monitor.registry.filter (fun p => p.1 ≠ pid) } }) := by
  constructor
  · constructor
    · intro h
      cases hc : lookupSnap pid snap with
      | none => rfl
      | some c =>
        simp [Machine.track_process, Monitor.track_process, hc] at h
    · intro h
      simp [Machine.track_process, Monitor.track_process, h]
  · intro c hc
    simp [Machine.track_process, Monitor.track_process, insertEntity, hc]

theorem track_process_spec_witness :
    ((Machine.mk ⟨[], none⟩ none).track_process [(1, 2)] 0 7 =
        .error .ProcessNotFound ↔ lookupSnap 7 [(1, 2)] = none) ∧
    (Machine.mk ⟨[], none⟩ none).track_process [(1, 2)] 0 1 =
      .ok (Machine.mk ⟨[(1, ⟨2, 0⟩)], none⟩ none) := by
  constructor
  · exact (track_process_spec (Machine.mk ⟨[], none⟩ none) [(1, 2)] 0 7).1
  · exact (track_process_spec (Machine.mk ⟨[], none⟩ none) [(1, 2)] 0 1).2 2 rfl

/-- C4: a tracked pid absent from the new snapshot is silently excluded
from the poll's result (no error, the batch continues), every other
registry entry present in the snapshot is still reported, and the absent
entity's entry is retained unchanged in the registry. -/
theorem poll_processes_skips_absent
    (m : Machine) (snap : ProcSnapshot) (now : ℚ) (pid : Int)
    (e : TrackedEntity)
    (hmem : (pid, e) ∈ m.monitor.registry)
    (habs : lookupSnap pid snap = none) :
    (∀ p ∈ (m.processes_status snap now).1, p.pid ≠ pid) ∧
    ((pid, e) ∈ (m.processes_status snap now).2.monitor.registry) ∧
    (∀ q f c, (q, f) ∈ m.monitor.registry → lookupSnap q snap = some c →
      ({ pid := q,
         cpu := cpuPercent f.baseline_cpu_time f.baseline_timestamp c now }
        : Process) ∈ (m.processes_status snap now).1) := by
  refine ⟨?_, ?_, ?_⟩
  · intro p hp
    simp only [Machine.processes_status, Monitor.next_processes,
      List.mem_map] at hp
    obtain ⟨⟨q, v⟩, hqv, rfl⟩ := hp
    obtain ⟨f, c, _, hl, _⟩ := pollRegistry_result_shape hqv
    intro hcontra
    have hq2 : q = pid := hcontra
    subst hq2
    rw [habs] at hl
    exact Option.noConfusion hl
  · simpa [Machine.processes_status, Monitor.next_processes] using
      @pollRegistry_retains_absent snap now m.monitor.registry pid e hmem habs
  · intro q f c hq hl
    have h := @pollRegistry_mem_result snap now m.monitor.registry q f c hq hl
    simpa [Machine.processes_status, Monitor.next_processes] using
      List.mem_map_of_mem (fun p => Process.mk p.1 p.2) h

theorem poll_processes_skips_absent_witness :
    (∀ p ∈ ((Machine.mk ⟨[(1, ⟨0, 0⟩), (2, ⟨0, 0⟩)], none⟩ none).processes_status
        [(2, 3)] 1).1, p.pid ≠ 1) ∧
    ((1 : Int), (⟨0, 0⟩ : TrackedEntity)) ∈
      ((Machine.mk ⟨[(1, ⟨0, 0⟩), (2, ⟨0, 0⟩)], none⟩ none).processes_status
        [(2, 3)] 1).2.monitor.registry := by
  have h := poll_processes_skips_absent
    (Machine.mk ⟨[(1, ⟨0, 0⟩), (2, ⟨0, 0⟩)], none⟩ none) [(2, 3)] 1 1 ⟨0, 0⟩
    (List.mem_cons_self _ _) rfl
  exact ⟨h.1, h.2.1⟩

/-- C5: every poll replaces each polled entity's baseline with the
just-observed `(cpu_time_now, now)`, and two immediately successive
whole-system polls make the second one report only the intervening
interval's delta. -/
theorem poll_replaces_baselines :
    (∀ (m : Machine) (snap : ProcSnapshot) (now : ℚ) (pid : Int)
        (e : TrackedEntity) (c : ℚ),
      (pid, e) ∈ m.monitor.registry → lookupSnap pid snap = some c →
      (pid, (⟨c, now⟩ : TrackedEntity)) ∈
        (m.processes_status snap now).2.monitor.registry) ∧
    (∀ (m : Machine) (s1 s2 : SysSnapshot) (t1 t2 : ℚ), t1 < t2 →
      ∃ r1 m1 r2 m2,
        m.system_status (some s1) t1 = .ok (r1, m1) ∧
        m1.system_status (some s2) t2 = .ok (r2, m2) ∧
        r2.cpu = 100 * (s2.cumulative_cpu_time - s1.cumulative_cpu_time) /
          (t2 - t1)) := by
  constructor
  · intro m snap now pid e c hmem hsnap
    simpa [Machine.processes_status, Monitor.next_processes] using
      @pollRegistry_mem_updated snap now m.monitor.registry pid e c hmem hsnap
  · intro m s1 s2 t1 t2 ht
    refine ⟨_, _, _, _, system_status_ok m s1 t1, system_status_ok _ s2 t2, ?_⟩
    simp only [sysPct]
    exact cpuPercent_of_pos _ _ (sub_pos.mpr ht)

theorem poll_replaces_baselines_witness :
    ((1 : Int), (⟨3, 1⟩ : TrackedEntity)) ∈
      ((Machine.mk ⟨[(1, ⟨0, 0⟩)], none⟩ none).processes_status
        [(1, 3)] 1).2.monitor.registry ∧
    (∃ r1 m1 r2 m2,
      (Machine.mk ⟨[], none⟩ none).system_status (some ⟨1, 4⟩) 0 =
        .ok (r1, m1) ∧
      m1.system_status (some ⟨3, 4⟩) 1 = .ok (r2, m2) ∧
      r2.cpu = 100 * ((3 : ℚ) - 1) / (1 - 0)) := by
  constructor
  · exact poll_replaces_baselines.1 _ [(1, 3)] 1 1 ⟨0, 0⟩ 3
      (List.mem_singleton_self _) rfl
  · exact poll_replaces_baselines.2 _ ⟨1, 4⟩ ⟨3, 4⟩ 0 1 (by norm_num)

/-- C6: `untrack_process` always succeeds (it is total and returns no
error): it removes the registry entry for the pid when present, and is a
no-op when the pid was never registered. -/
theorem untrack_process_spec (m : Machine) (pid : Int) :
    (∀ e, (pid, e) ∉ (m.untrack_process pid).monitor.registry) ∧
    ((∀ e, (pid, e) ∉ m.monitor.registry) → m.untrack_process pid = m) := by
  constructor
  · intro e he
    simp [Machine.untrack_process, Monitor.untrack_process,
      List.mem_filter] at he
  · intro h
    have hf : m.monitor.registry.filter (fun p => p.1 ≠ pid) =
        m.monitor.registry := by
      refine List.filter_eq_self.mpr ?_
      rintro ⟨q, f⟩ ha
      have hq : q ≠ pid := fun hc => h f (hc ▸ ha)
      simp [hq]
    unfold Machine.untrack_process Monitor.untrack_process
    rw [hf]

theorem untrack_process_spec_witness :
    (∀ e, ((2 : Int), e) ∉
      ((Machine.mk ⟨[(1, ⟨0, 0⟩)], none⟩ none).untrack_process 2).monitor.registry) ∧
    (Machine.mk ⟨[(1, ⟨0, 0⟩)], none⟩ none).untrack_process 2 =
      Machine.mk ⟨[(1, ⟨0, 0⟩)], none⟩ none := by
  constructor
  · exact (untrack_process_spec (Machine.mk ⟨[(1, ⟨0, 0⟩)], none⟩ none) 2).1
  · refine (untrack_process_spec (Machine.mk ⟨[(1, ⟨0, 0⟩)], none⟩ none) 2).2 ?_
    intro e he
    simp at he

/-- C7: tracking a pid (from an empty registry) and immediately
untracking it leaves the registry empty, and a subsequent per-process
poll returns the empty sequence. -/
theorem track_untrack_leaves_empty
    (m : Machine) (snap : ProcSnapshot) (now : ℚ) (pid : Int) (m' : Machine)
    (hempty : m.monitor.registry = [])
    (h : m.track_process snap now pid = .ok m') :
    (m'.untrack_process pid).monitor.registry = [] ∧
    ∀ snap2 now2,
      ((m'.untrack_process pid).processes_status snap2 now2).1 = [] := by
  cases hc : lookupSnap pid snap with
  | none => simp [Machine.track_process, Monitor.track_process, hc] at h
  | some c =>
    simp only [Machine.track_process, Monitor.track_process, insertEntity,
      hc, Except.ok.injEq] at h
    subst h
    constructor
    · simp [Machine.untrack_process, Monitor.untrack_process, hempty]
    · intro snap2 now2
      simp [Machine.untrack_process, Monitor.untrack_process,
        Machine.processes_status, Monitor.next_processes, hempty, pollRegistry]

theorem track_untrack_leaves_empty_witness :
    ((Machine.mk ⟨[(5, ⟨1, 0⟩)], none⟩ none).untrack_process 5).monitor.registry
      = [] ∧
    (((Machine.mk ⟨[(5, ⟨1, 0⟩)], none⟩ none).untrack_process 5).processes_status
      [(5, 2)] 1).1 = [] := by
  have h := track_untrack_leaves_empty (Machine.mk ⟨[], none⟩ none)
    [(5, 1)] 0 5 (Machine.mk ⟨[(5, ⟨1, 0⟩)], none⟩ none) rfl rfl
  exact ⟨h.1, h.2 [(5, 2)] 1⟩

/-- C8: a whole-system poll fails with `SamplingError` exactly when the
snapshot provider fails; when the provider succeeds, the poll returns a
result (the failure is never swallowed into a partial result). -/
theorem system_status_error_iff
    (m : Machine) (snap : Option SysSnapshot) (now : ℚ) :
    (m.system_status snap now = .error .SamplingError ↔ snap = none) ∧
    (∀ s, snap = some s →
      ∃ r m', m.system_status snap now = .ok (r, m')) := by
  constructor
  · constructor
    · intro h
      cases snap with
      | none => rfl
      | some s => simp [system_status_ok] at h
    · rintro rfl
      rfl
  · rintro s rfl
    exact ⟨_, _, system_status_ok m s now⟩

theorem system_status_error_iff_witness :
    (Machine.mk ⟨[], none⟩ none).system_status none 0 =
      .error .SamplingError ∧
    ∃ r m', (Machine.mk ⟨[], none⟩ none).system_status (some ⟨1, 2⟩) 0 =
      .ok (r, m') := by
  exact ⟨(system_status_error_iff (Machine.mk ⟨[], none⟩ none) none 0).1.mpr rfl,
    (system_status_error_iff (Machine.mk ⟨[], none⟩ none) (some ⟨1, 2⟩) 0).2
      ⟨1, 2⟩ rfl⟩

/-- C9: the first successful whole-system poll, made when no
`SystemBaseline` exists yet, initializes the baseline from that first
snapshot and reports a zero cpu utilization together with the
instantaneous memory used. -/
theorem first_system_poll
    (m : Machine) (s : SysSnapshot) (now : ℚ)
    (hbase : m.monitor.sysBaseline = none) :
    ∃ m', m.system_status (some s) now = .ok (⟨s.memory_used, 0⟩, m') ∧
      m'.monitor.sysBaseline = some ⟨s.cumulative_cpu_time, now⟩ := by
  refine ⟨{ m with monitor := { m.monitor with
      sysBaseline := some ⟨s.cumulative_cpu_time, now⟩ } }, ?_, rfl⟩
  simpa [sysPct, hbase] using system_status_ok m s now

theorem first_system_poll_witness :
    ∃ m', (Machine.mk ⟨[], none⟩ none).system_status (some ⟨2, 7⟩) 3 =
        .ok (⟨7, 0⟩, m') ∧
      m'.monitor.sysBaseline = some ⟨2, 3⟩ := by
  exact first_system_poll (Machine.mk ⟨[], none⟩ none) ⟨2, 7⟩ 3 rfl

/-- C10: `Machine::new` always succeeds, even when the NVIDIA driver
cannot be initialized — the NVML handle is then simply absent — and in
that case `graphics_status` returns the empty vector without raising any
error. -/
theorem new_without_nvml (e : NvmlError) :
    (Machine.new (.error e)).nvml = none ∧
    (Machine.new (.error e)).graphics_status = [] :=
  ⟨rfl, rfl⟩

end MachineInfo
